import Mathlib

/-!
Verification development for a TODO-list backend (user registration, JWT
authentication, per-user ownership-scoped CRUD).  The definitions below are a
shallow embedding of the Python source: the PostgreSQL table `todos` becomes a
list of rows, each `asyncpg` query becomes the corresponding pure list
operation, pydantic validators become `Except`-valued functions, and the
password / signature primitives are abstracted as function parameters.
-/

namespace TodoApp

/-! ## String helpers (Python `str.strip`, `in`, `str.lower`) -/

/-- Characters removed by Python `str.strip()` (whitespace). -/
def dropLeadingWs : List Char → List Char
  | [] => []
  | c :: cs => if c.isWhitespace then dropLeadingWs cs else c :: cs

/-- Python `str.strip()` on a character list: drop whitespace at both ends. -/
def pyStripChars (cs : List Char) : List Char :=
  ((dropLeadingWs (dropLeadingWs cs).reverse)).reverse

/-- Python `str.strip()`. -/
def pyStrip (s : String) : String :=
  ⟨pyStripChars s.data⟩

/-- Does `needle` occur as a leading segment of `hay`? -/
def leadsWith : List Char → List Char → Bool
  | [], _ => true
  | _ :: _, [] => false
  | n :: ns, h :: hs => n == h && leadsWith ns hs

/-- Does `needle` occur as a contiguous segment of `hay`?
(Python `needle in hay`.) -/
def charsContain (needle : List Char) : List Char → Bool
  | [] => leadsWith needle []
  | h :: hs => leadsWith needle (h :: hs) || charsContain needle hs

/-- Python substring test `needle in hay`. -/
def strIn (needle hay : String) : Bool :=
  charsContain needle.data hay.data

/-- Python `str.lower()` (per-character lowering). -/
def pyLower (s : String) : String :=
  ⟨s.data.map Char.toLower⟩

/-! ## Data model

`todos(id, title, description, completed, created_at, user_id)` from the
migration schema; a database is the list of its rows in physical order
(`fetchrow` without ORDER BY returns the first matching row in that order). -/

structure TodoRow where
  id : Nat
  title : String
  description : Option String
  completed : Bool
  created_at : Nat
  user_id : Nat
deriving Repr, DecidableEq

abbrev TodoDb := List TodoRow

/-- Source `app/exceptions/custom_exceptions.py`: `TodoNotFoundError(todo_id)` and
`DatabaseError` (the wrapper for unexpected store failures). -/
inductive TodoError where
  | notFound (todo_id : Nat)
  | databaseError
deriving Repr, DecidableEq

/-- Predicate `WHERE id = $1 AND user_id = $2`. -/
def rowMatches (todo_id user_id : Nat) (r : TodoRow) : Bool :=
  r.id == todo_id && r.user_id == user_id

/-- Source `app/crud/todos.py` `get_todo_or_raise`: fetch the row matching id (and
owner when a user id is supplied), raising `TodoNotFoundError` when none. -/
def get_todo_or_raise (db : TodoDb) (todo_id : Nat) (user_id : Option Nat) :
    Except TodoError TodoRow :=
  match user_id with
  | some uid =>
    match db.find? (rowMatches todo_id uid) with
    | some r => .ok r
    | none => .error (.notFound todo_id)
  | none =>
    match db.find? (fun r => r.id == todo_id) with
    | some r => .ok r
    | none => .error (.notFound todo_id)

/-- Source `app/crud/todos.py` `get_todo`: ownership-scoped single fetch. -/
def get_todo (db : TodoDb) (todo_id : Nat) (user_id : Nat) :
    Except TodoError TodoRow :=
  get_todo_or_raise db todo_id (some user_id)

/-- The `completed = $n` filter of `list_todos` (absent filter matches all rows). -/
def matchesCompleted (completed : Option Bool) (r : TodoRow) : Bool :=
  match completed with
  | none => true
  | some c => r.completed == c

/-- Clause `(title ILIKE $n OR description ILIKE $n)` with pattern `%search%`:
case-insensitive substring match; a NULL description never matches. -/
def matchesSearch (search : Option String) (r : TodoRow) : Bool :=
  match search with
  | none => true
  | some s =>
    strIn (pyLower s) (pyLower r.title) ||
      (match r.description with
       | some d => strIn (pyLower s) (pyLower d)
       | none => false)

/-- The full WHERE clause built by `list_todos`. -/
def listMatches (user_id : Nat) (completed : Option Bool)
    (search : Option String) (r : TodoRow) : Bool :=
  r.user_id == user_id && matchesCompleted completed r && matchesSearch search r

/-- Ordering `ORDER BY created_at DESC` (insertion sort; relative order of equal
timestamps is unspecified by the SQL and immaterial to the claims). -/
def insertByCreatedDesc (r : TodoRow) : List TodoRow → List TodoRow
  | [] => [r]
  | x :: xs =>
    if x.created_at ≤ r.created_at then r :: x :: xs
    else x :: insertByCreatedDesc r xs

/-- Sort rows by `created_at` descending. -/
def sortByCreatedDesc : List TodoRow → List TodoRow
  | [] => []
  | x :: xs => insertByCreatedDesc x (sortByCreatedDesc xs)

/-- Source `app/models/schemas.py` `TodosWithPagination`. -/
structure TodosWithPagination where
  todos : List TodoRow
  total_count : Nat
  page : Nat
  page_size : Nat
  total_pages : Nat
deriving Repr, DecidableEq

/-- Source `app/crud/todos.py` `list_todos`: count the filtered set, compute
`offset = (page - 1) * page_size` and `total_pages = (total_count +
page_size - 1) // page_size`, then return the page slice of the rows ordered
by creation time descending (`LIMIT page_size OFFSET offset`). -/
def list_todos (db : TodoDb) (user_id : Nat) (completed : Option Bool)
    (search : Option String) (page page_size : Nat) : TodosWithPagination :=
  let filtered := db.filter (listMatches user_id completed search)
  let total_count := filtered.length
  let offset := (page - 1) * page_size
  let total_pages := (total_count + page_size - 1) / page_size
  let rows := ((sortByCreatedDesc filtered).drop offset).take page_size
  ⟨rows, total_count, page, page_size, total_pages⟩

/-- Source `app/models/schemas.py` `TodoPatch` after validation: each field is
present (`some`) or omitted (`none`). -/
structure TodoPatch where
  title : Option String
  description : Option String
  completed : Option Bool
deriving Repr, DecidableEq

/-- Source `app/models/schemas.py` `TodoPut` after validation: all fields present
(`completed` defaults to `false` at parse time). -/
structure TodoPut where
  title : String
  description : Option String
  completed : Bool
deriving Repr, DecidableEq

/-- The `SET` clause of the PATCH `UPDATE`: overwrite exactly the fields the
patch supplies. -/
def applyPatch (p : TodoPatch) (r : TodoRow) : TodoRow :=
  { r with
    title := p.title.getD r.title
    description := match p.description with
      | some d => some d
      | none => r.description
    completed := p.completed.getD r.completed }

/-- Source `app/crud/todos.py` `update_todo` (PATCH): fetch-or-raise under the
ownership predicate; when no field is present return the existing row with no
write; otherwise `UPDATE ... WHERE id AND user_id RETURNING *` (the returned
row is the first updated one, per `fetchrow`). -/
def update_todo (db : TodoDb) (todo_id : Nat) (patch : TodoPatch)
    (user_id : Nat) : Except TodoError (TodoDb × TodoRow) :=
  match get_todo_or_raise db todo_id (some user_id) with
  | .error e => .error e
  | .ok existing =>
    if patch.title = none ∧ patch.description = none ∧ patch.completed = none
    then .ok (db, existing)
    else
      let db' := db.map fun r =>
        if rowMatches todo_id user_id r then applyPatch patch r else r
      match db'.find? (rowMatches todo_id user_id) with
      | some r => .ok (db', r)
      | none => .error .databaseError

/-- Source `app/crud/todos.py` `replace_todo` (PUT): fetch-or-raise, then overwrite
title, description and completed on every row matching id and owner. -/
def replace_todo (db : TodoDb) (todo_id : Nat) (data : TodoPut)
    (user_id : Nat) : Except TodoError (TodoDb × TodoRow) :=
  match get_todo_or_raise db todo_id (some user_id) with
  | .error e => .error e
  | .ok _ =>
    let db' := db.map fun r =>
      if rowMatches todo_id user_id r then
        { r with
          title := data.title
          description := data.description
          completed := data.completed }
      else r
    match db'.find? (rowMatches todo_id user_id) with
    | some r => .ok (db', r)
    | none => .error .databaseError

/-- Source `app/crud/todos.py` `delete_todo`: fetch-or-raise, then
`DELETE ... WHERE id AND user_id`; `DELETE 0` re-raises not-found. -/
def delete_todo (db : TodoDb) (todo_id : Nat) (user_id : Nat) :
    Except TodoError (TodoDb × String) :=
  match get_todo_or_raise db todo_id (some user_id) with
  | .error e => .error e
  | .ok _ =>
    let remaining := db.filter fun r => !(rowMatches todo_id user_id r)
    if db.length - remaining.length = 0 then .error (.notFound todo_id)
    else .ok (remaining, "TODO deleted successfully")

/-- Source `app/routes/todos.py` `toggle_todo_completion`: read the current row,
then PATCH with the opposite completion status. -/
def toggle_todo_completion (db : TodoDb) (todo_id : Nat) (user_id : Nat) :
    Except TodoError (TodoDb × TodoRow) :=
  match get_todo db todo_id user_id with
  | .error e => .error e
  | .ok current =>
    update_todo db todo_id ⟨none, none, some (!current.completed)⟩ user_id

/-! ## Statistics (`app/routes/todos.py` `get_todo_stats`) -/

/-- Source `app/models/schemas.py` `TodoStats`; the completion rate is embedded as an
exact rational standing for the Python float. -/
structure TodoStats where
  total_todos : Nat
  completed_todos : Nat
  pending_todos : Nat
  completion_rate : ℚ
deriving Repr, DecidableEq

/-- Python `round(x, 2)`: round to two decimal places (on the exact
rational value). -/
def roundTo2 (q : ℚ) : ℚ :=
  ((round (q * 100) : ℤ) : ℚ) / 100

/-- Source `app/routes/todos.py` `get_todo_stats`: `COUNT(*)`,
`COUNT(CASE WHEN completed ...)` aggregates over `WHERE user_id = $1`, and
`completion_rate = completed / total * 100` when `total > 0`, else `0`. -/
def get_todo_stats (db : TodoDb) (user_id : Nat) : TodoStats :=
  let mine := db.filter fun r => r.user_id == user_id
  let total := mine.length
  let completed := (mine.filter fun r => r.completed).length
  let pending := (mine.filter fun r => !r.completed).length
  let completion_rate : ℚ :=
    if total > 0 then (completed : ℚ) / (total : ℚ) * 100 else 0
  ⟨total, completed, pending, roundTo2 completion_rate⟩

/-! ## Input validation (`app/models/schemas.py`)

pydantic first enforces the `Field` length constraints, then runs the
`field_validator` (mode `after`).  The three schemas `TodoCreate`, `TodoPatch`
and `TodoPut` carry textually identical `validate_title` /
`validate_description` validators, embedded once below. -/

/-- Python `v.isspace()` is true iff `v` is nonempty and all whitespace;
`not v or v.isspace()` therefore holds iff every character is whitespace. -/
def allWhitespace (s : String) : Bool :=
  s.data.all Char.isWhitespace

/-- Title pipeline shared by `TodoCreate`, `TodoPatch` and `TodoPut`:
`Field(min_length=1, max_length=200)`, then reject empty/all-whitespace,
strip, reject `<` or `>`, and store the stripped value. -/
def validateTitleField (v : String) : Except String String :=
  if v.length < 1 then .error "String should have at least 1 character"
  else if v.length > 200 then .error "String should have at most 200 characters"
  else if allWhitespace v then .error "Title cannot be empty or just whitespace"
  else if (pyStrip v).data.contains '<' || (pyStrip v).data.contains '>' then
    .error "Title cannot contain HTML tags"
  else .ok (pyStrip v)

/-- Description pipeline shared by the three schemas:
`Field(max_length=1000)`, then strip, normalize an all-whitespace result to
absent, and reject `<script` / `</script>` case-insensitively. -/
def validateDescriptionField (v : Option String) : Except String (Option String) :=
  match v with
  | none => .ok none
  | some s =>
    if s.length > 1000 then .error "String should have at most 1000 characters"
    else if pyStrip s = "" then .ok none
    else if strIn "<script" (pyLower (pyStrip s))
        || strIn "</script>" (pyLower (pyStrip s)) then
      .error "Description cannot contain script tags"
    else .ok (some (pyStrip s))

/-- Source `app/models/schemas.py` `TodoCreate` after validation. -/
structure TodoCreate where
  title : String
  description : Option String
deriving Repr, DecidableEq

/-- Parse/validate a `TodoCreate` body (title required). -/
def parseTodoCreate (title : String) (description : Option String) :
    Except String TodoCreate := do
  let t ← validateTitleField title
  let d ← validateDescriptionField description
  return ⟨t, d⟩

/-- Parse/validate a `TodoPatch` body (all fields optional; an absent title
skips validation entirely). -/
def parseTodoPatch (title : Option String) (description : Option String)
    (completed : Option Bool) : Except String TodoPatch := do
  let t ← match title with
    | none => Except.ok none
    | some s => (validateTitleField s).map some
  let d ← validateDescriptionField description
  return ⟨t, d, completed⟩

/-- Parse/validate a `TodoPut` body (title required, `completed` defaults to
`false` when the body omits it). -/
def parseTodoPut (title : String) (description : Option String)
    (completed : Option Bool) : Except String TodoPut := do
  let t ← validateTitleField title
  let d ← validateDescriptionField description
  return ⟨t, d, completed.getD false⟩

/-! ## Users (`app/crud/users.py`)

The `users(id, username unique, email unique, hashed_password, is_active,
created_at)` table becomes a list of rows in physical order.  Password
hashing/verification (`passlib` bcrypt) is abstracted as function
parameters. -/

structure UserRow where
  id : Nat
  username : String
  email : String
  hashed_password : String
  is_active : Bool
  created_at : Nat
deriving Repr, DecidableEq

abbrev UserDb := List UserRow

/-- Modelled from the spec: `app/models/user.py` is imported by the source but
absent from the repository snapshot; per the spec, registration carries
`username`, `email`, `password`. -/
structure UserCreate where
  username : String
  email : String
  password : String
deriving Repr, DecidableEq

/-- Modelled from the spec: the user shape returned by the API — `id`,
`username`, `email`, `is_active`, `created_at`, never the password hash. -/
structure UserResponse where
  id : Nat
  username : String
  email : String
  is_active : Bool
  created_at : Nat
deriving Repr, DecidableEq

/-- Source `app/crud/users.py` `UserAlreadyExistsError(field, value)` and the
generic `DatabaseError`. -/
inductive UserError where
  | alreadyExists (field : String) (value : String)
  | databaseError
deriving Repr, DecidableEq

/-- Strip the password hash from a stored row. -/
def UserRow.toResponse (r : UserRow) : UserResponse :=
  ⟨r.id, r.username, r.email, r.is_active, r.created_at⟩

/-- Source `app/crud/users.py` `create_user`: one query
`SELECT ... WHERE username = $1 OR email = $2` (first matching row in
physical order); on a hit, report `username` when that row's username equals
the requested one, else `email`; otherwise hash the password and insert. -/
def create_user (hashFn : String → String) (db : UserDb) (u : UserCreate)
    (newId : Nat) (now : Nat) : Except UserError (UserDb × UserResponse) :=
  match db.find? (fun r => r.username == u.username || r.email == u.email) with
  | some existing =>
    if existing.username == u.username then
      .error (.alreadyExists "username" u.username)
    else
      .error (.alreadyExists "email" u.email)
  | none =>
    let row : UserRow := ⟨newId, u.username, u.email, hashFn u.password, true, now⟩
    .ok (db ++ [row], row.toResponse)

/-- Source `app/crud/users.py` `get_user_by_username`:
`SELECT * FROM users WHERE username = $1 AND is_active = TRUE`. -/
def get_user_by_username (db : UserDb) (username : String) : Option UserRow :=
  db.find? fun r => r.username == username && r.is_active

/-- Source `app/crud/users.py` `authenticate_user`: look up by username (active
only); absent, or password verification fails, yields `none`; otherwise the
user without the hash.  `verify` stands for `passlib`'s
`verify_password(plain, hashed)`. -/
def authenticate_user (verify : String → String → Bool) (db : UserDb)
    (username password : String) : Option UserResponse :=
  match get_user_by_username db username with
  | none => none
  | some user_data =>
    if !(verify password user_data.hashed_password) then none
    else some user_data.toResponse

/-! ## Tokens (`app/core/security.py`, `app/routes/auth.py`) -/

/-- The JWT claim set produced by `create_access_token`: the `sub` entry of
the `data` dict and the `exp` entry added before encoding.  Times are seconds
on an absolute clock. -/
structure Token where
  sub : String
  exp : Nat
deriving Repr, DecidableEq

/-- Source `app/core/security.py` `create_access_token`: `if expires_delta:` is
Python truthiness, so a `None` **or zero** delta falls back to
`now + timedelta(minutes=15)`; otherwise `exp = now + expires_delta`.
`expiresDelta` is in seconds. -/
def create_access_token (sub : String) (now : Nat)
    (expiresDelta : Option Nat) : Token :=
  match expiresDelta with
  | some d => if d ≠ 0 then ⟨sub, now + d⟩ else ⟨sub, now + 15 * 60⟩
  | none => ⟨sub, now + 15 * 60⟩

/-- Unauthorized outcome of login / token verification (HTTP 401). -/
inductive AuthError where
  | unauthorized
deriving Repr, DecidableEq

/-- Source `app/core/security.py` `verify_token`: `jwt.decode` rejects an expired
token (`exp` earlier than the check time) as a `JWTError`, surfaced as 401;
a valid, unexpired token yields its payload.  Signature checking is outside
the model (tokens are taken as structurally intact). -/
def verify_token (tok : Token) (now : Nat) : Except AuthError Token :=
  if tok.exp < now then .error .unauthorized
  else .ok tok

/-- Source `app/core/security.py` `ACCESS_TOKEN_EXPIRE_MINUTES = 30`. -/
def ACCESS_TOKEN_EXPIRE_MINUTES : Nat := 30

/-- Source `app/routes/auth.py` `login_user`: authenticate; on failure raise 401
with one fixed detail for both unknown username and wrong password; on
success issue a token for the username with
`timedelta(minutes=ACCESS_TOKEN_EXPIRE_MINUTES)`. -/
def login_user (verify : String → String → Bool) (db : UserDb)
    (username password : String) (now : Nat) : Except AuthError Token :=
  match authenticate_user verify db username password with
  | none => .error .unauthorized
  | some user =>
    .ok (create_access_token user.username now (some (ACCESS_TOKEN_EXPIRE_MINUTES * 60)))

/-! ## Spec-side characterizations (for the validation refinement claim)

These two definitions follow the spec's words, not the code, and are compared
with the source-derived validators. -/

/-- Spec wording: a title is accepted unless it is empty or all-whitespace
after trimming, contains `<` or `>`, or is over 200 characters; the stored
value is the trimmed title. -/
def specTitleAccepts (t : String) : Bool :=
  !(allWhitespace t) && !(t.data.contains '<') && !(t.data.contains '>')
    && t.length ≤ 200

/-- Spec wording: a (present) description is accepted unless it is over 1000
characters or its trimmed value contains `<script` or `</script>`
case-insensitively; an all-whitespace description normalizes to absent, and
otherwise the trimmed value is stored. -/
def specDescriptionAccepts (d : String) : Bool :=
  d.length ≤ 1000
    && !(strIn "<script" (pyLower (pyStrip d)))
    && !(strIn "</script>" (pyLower (pyStrip d)))

/-! ## Concrete databases used by witnesses -/

/-- Twenty-five rows, all owned by user 1 and all matching an unfiltered list. -/
def dbC2 : TodoDb :=
  (List.range 25).map fun i => ⟨i, "t", none, false, i, 1⟩

/-! ## Helper lemmas -/

/-- Lemma: `find?` commutes with a `map` whose function preserves the predicate. -/
theorem find?_map_pres {α : Type} (f : α → α) (p : α → Bool)
    (hp : ∀ x, p (f x) = p x) (l : List α) :
    (l.map f).find? p = (l.find? p).map f := by
  induction l with
  | nil => rfl
  | cons x xs ih =>
    simp only [List.map_cons, List.find?]
    rw [hp x]
    cases hpx : p x <;> simp [ih]

/-- The PATCH `SET` clause never touches `id` or `user_id`. -/
theorem rowMatches_applyPatch (i u : Nat) (p : TodoPatch) (r : TodoRow) :
    rowMatches i u (applyPatch p r) = rowMatches i u r := rfl

/-- The conditional row-update map of `update_todo` preserves the ownership
predicate. -/
theorem rowMatches_updateFn (i u : Nat) (p : TodoPatch) (r : TodoRow) :
    rowMatches i u (if rowMatches i u r then applyPatch p r else r)
      = rowMatches i u r := by
  cases h : rowMatches i u r <;> simp [h, rowMatches_applyPatch]

theorem length_insertByCreatedDesc (r : TodoRow) (l : List TodoRow) :
    (insertByCreatedDesc r l).length = l.length + 1 := by
  induction l with
  | nil => rfl
  | cons x xs ih =>
    unfold insertByCreatedDesc
    split <;> simp [ih]

theorem length_sortByCreatedDesc (l : List TodoRow) :
    (sortByCreatedDesc l).length = l.length := by
  induction l with
  | nil => rfl
  | cons x xs ih => simp [sortByCreatedDesc, length_insertByCreatedDesc, ih]

/-- Ceiling division: the integer formula `(a + b - 1) / b` used by
`list_todos` computes `⌈a / b⌉`. -/
theorem add_sub_one_div_eq_ceil (a b : Nat) (hb : 0 < b) :
    ((a + b - 1) / b : Nat) = ⌈(a : ℚ) / (b : ℚ)⌉₊ := by
  rcases Nat.eq_zero_or_pos a with ha | ha
  · subst ha
    simp [Nat.div_eq_of_lt (by omega : b - 1 < b)]
  · have hq : (a + b - 1) = b * ((a + b - 1) / b) + (a + b - 1) % b :=
      (Nat.div_add_mod _ _).symm
    have hr : (a + b - 1) % b < b := Nat.mod_lt _ hb
    set n := (a + b - 1) / b with hn
    have hnpos : 0 < n := by
      rw [hn]
      have : b ≤ a + b - 1 := by omega
      exact Nat.div_pos this hb
    have h1 : a ≤ b * n := by omega
    have hmul : b * n = b * (n - 1) + b := by
      conv_lhs => rw [(by omega : n = (n - 1) + 1)]
      rw [Nat.mul_succ]
    have h2 : b * (n - 1) < a := by omega
    rw [Nat.mul_comm] at h1 h2
    symm
    rw [Nat.ceil_eq_iff (by omega : n ≠ 0)]
    constructor
    · rw [lt_div_iff₀ (by exact_mod_cast hb : (0 : ℚ) < b)]
      exact_mod_cast h2
    · rw [div_le_iff₀ (by exact_mod_cast hb : (0 : ℚ) < b)]
      exact_mod_cast h1

/-- Dropping leading whitespace of an all-whitespace list yields the empty
list, and conversely. -/
theorem dropLeadingWs_eq_nil_iff (cs : List Char) :
    dropLeadingWs cs = [] ↔ cs.all Char.isWhitespace := by
  induction cs with
  | nil => simp [dropLeadingWs]
  | cons c cs ih =>
    unfold dropLeadingWs
    by_cases hc : c.isWhitespace <;> simp [hc, ih]

/-- Lemma: `dropLeadingWs` removes only whitespace characters, so all-whitespace is
unchanged as a property. -/
theorem all_ws_dropLeadingWs (cs : List Char) :
    (dropLeadingWs cs).all Char.isWhitespace = cs.all Char.isWhitespace := by
  induction cs with
  | nil => rfl
  | cons c cs ih =>
    unfold dropLeadingWs
    by_cases hc : c.isWhitespace <;> simp [hc, ih]

/-- Python `strip` yields the empty string exactly on all-whitespace input. -/
theorem pyStrip_eq_empty_iff (s : String) :
    pyStrip s = "" ↔ allWhitespace s := by
  unfold pyStrip pyStripChars allWhitespace
  constructor
  · intro h
    have h' : (dropLeadingWs (dropLeadingWs s.data).reverse).reverse = [] := by
      have := congrArg String.data h
      simpa using this
    rw [List.reverse_eq_nil_iff, dropLeadingWs_eq_nil_iff] at h'
    rw [List.all_reverse, all_ws_dropLeadingWs] at h'
    exact h'
  · intro h
    have h1 : (dropLeadingWs s.data) = [] := (dropLeadingWs_eq_nil_iff _).mpr h
    simp [h1, dropLeadingWs]

/-- Lemma: `dropLeadingWs` preserves membership of non-whitespace characters. -/
theorem mem_dropLeadingWs (c : Char) (hc : ¬ c.isWhitespace)
    (cs : List Char) : c ∈ dropLeadingWs cs ↔ c ∈ cs := by
  induction cs with
  | nil => simp [dropLeadingWs]
  | cons x xs ih =>
    unfold dropLeadingWs
    by_cases hx : x.isWhitespace
    · have hne : c ≠ x := fun h => hc (h ▸ hx)
      simp [hx, ih, List.mem_cons, hne]
    · simp [hx]

/-- Python `strip` preserves membership of non-whitespace characters. -/
theorem contains_pyStrip (c : Char) (hc : ¬ c.isWhitespace) (s : String) :
    (pyStrip s).data.contains c = s.data.contains c := by
  have h : c ∈ (pyStrip s).data ↔ c ∈ s.data := by
    show c ∈ (dropLeadingWs (dropLeadingWs s.data).reverse).reverse ↔ _
    rw [List.mem_reverse, mem_dropLeadingWs c hc, List.mem_reverse,
      mem_dropLeadingWs c hc]
  rw [Bool.eq_iff_iff, List.elem_iff, List.elem_iff]
  exact h

/-- A successful ownership-scoped fetch. -/
theorem get_todo_found (db : TodoDb) (i u : Nat) (r : TodoRow)
    (h : db.find? (rowMatches i u) = some r) :
    get_todo db i u = .ok r := by
  simp [get_todo, get_todo_or_raise, h]

/-- The empty patch is the identity on rows. -/
theorem applyPatch_empty (r : TodoRow) :
    applyPatch ⟨none, none, none⟩ r = r := rfl

/-- Writing the empty patch conditionally over the database is a no-op. -/
theorem map_applyPatch_empty (db : TodoDb) (i u : Nat) :
    (db.map fun x =>
        if rowMatches i u x then applyPatch ⟨none, none, none⟩ x else x)
      = db := by
  rw [show (fun x => if rowMatches i u x then
        applyPatch ⟨none, none, none⟩ x else x) = id from ?_, List.map_id]
  funext x
  simp [applyPatch_empty]

/-- When the row is found, PATCH returns the conditionally-mapped database
and the patched first matching row (this also covers the no-field early
return, where `applyPatch` is the identity). -/
theorem update_todo_found (db : TodoDb) (i u : Nat) (p : TodoPatch)
    (r : TodoRow) (h : db.find? (rowMatches i u) = some r) :
    update_todo db i p u =
      .ok (db.map fun x => if rowMatches i u x then applyPatch p x else x,
        applyPatch p r) := by
  have hr : rowMatches i u r = true := List.find?_some h
  have hfind :
      (db.map fun x => if rowMatches i u x then applyPatch p x else x).find?
          (rowMatches i u)
        = some (if rowMatches i u r then applyPatch p r else r) := by
    rw [find?_map_pres _ _ (rowMatches_updateFn i u p), h, Option.map_some']
  by_cases hp : p.title = none ∧ p.description = none ∧ p.completed = none
  · obtain ⟨h1, h2, h3⟩ := hp
    have hpe : p = ⟨none, none, none⟩ := by
      cases p; simp_all
    subst hpe
    rw [map_applyPatch_empty, applyPatch_empty]
    simp [update_todo, get_todo_or_raise, h]
  · rw [hr, if_pos rfl] at hfind
    simp [update_todo, get_todo_or_raise, h, hp, hfind]

/-- After a PATCH write, the first row matching the ownership predicate is
the patched version of the previously first matching row. -/
theorem find?_after_update (db : TodoDb) (i u : Nat) (p : TodoPatch)
    (r : TodoRow) (h : db.find? (rowMatches i u) = some r) :
    (db.map fun x => if rowMatches i u x then applyPatch p x else x).find?
        (rowMatches i u) = some (applyPatch p r) := by
  rw [find?_map_pres _ _ (rowMatches_updateFn i u p), h, Option.map_some',
    List.find?_some h, if_pos rfl]

/-! ## Claim theorems -/

/-- C1: when no todo row matches both the id and the caller's user id, `get`,
PATCH `update`, `delete` and PUT `replace` all fail with the same
`NotFound(todo_id)`; in particular a todo owned by a different user is
indistinguishable from a non-existent one. -/
theorem c1_nonowner_indistinguishable_from_absent (db : TodoDb)
    (todo_id user_id : Nat) (p : TodoPatch) (d : TodoPut)
    (h : ∀ r ∈ db, ¬(r.id = todo_id ∧ r.user_id = user_id)) :
    get_todo db todo_id user_id = .error (.notFound todo_id) ∧
    update_todo db todo_id p user_id = .error (.notFound todo_id) ∧
    delete_todo db todo_id user_id = .error (.notFound todo_id) ∧
    replace_todo db todo_id d user_id = .error (.notFound todo_id) := by
  have hf : db.find? (rowMatches todo_id user_id) = none := by
    rw [List.find?_eq_none]
    intro r hr hm
    exact h r hr (by simpa [rowMatches] using hm)
  refine ⟨?_, ?_, ?_, ?_⟩ <;>
    simp [get_todo, update_todo, delete_todo, replace_todo,
      get_todo_or_raise, hf]

/-- C1 witness: a todo owned by user 2 yields `NotFound` for caller 1 on all
four operations. -/
theorem c1_witness :
    (∀ r ∈ ([⟨5, "x", none, false, 0, 2⟩] : TodoDb),
      ¬(r.id = 5 ∧ r.user_id = 1)) ∧
    get_todo [⟨5, "x", none, false, 0, 2⟩] 5 1 = .error (.notFound 5) ∧
    delete_todo [⟨5, "x", none, false, 0, 2⟩] 5 1 = .error (.notFound 5) := by
  have h := c1_nonowner_indistinguishable_from_absent
    [⟨5, "x", none, false, 0, 2⟩] 5 1 ⟨none, none, none⟩ ⟨"t", none, false⟩
    (by decide)
  exact ⟨by decide, h.1, h.2.2.1⟩

/-- C2: `list` reports the count of exactly the rows matching the owner and
the active filters, computes `totalPages = ⌈totalCount / pageSize⌉`, and
returns the page-size slice of the ordered matching rows starting at offset
`(page − 1) × pageSize`. -/
theorem c2_list_pagination (db : TodoDb) (user_id : Nat)
    (completed : Option Bool) (search : Option String) (page page_size : Nat)
    (hps : 0 < page_size) :
    (list_todos db user_id completed search page page_size).total_count
        = (db.filter (listMatches user_id completed search)).length ∧
    (list_todos db user_id completed search page page_size).total_pages
        = ⌈((list_todos db user_id completed search page page_size).total_count : ℚ)
            / (page_size : ℚ)⌉₊ ∧
    (list_todos db user_id completed search page page_size).todos
        = ((sortByCreatedDesc (db.filter (listMatches user_id completed search))).drop
            ((page - 1) * page_size)).take page_size ∧
    (list_todos db user_id completed search page page_size).todos.length
        = min page_size
            ((list_todos db user_id completed search page page_size).total_count
              - (page - 1) * page_size) := by
  refine ⟨rfl, ?_, rfl, ?_⟩
  · exact add_sub_one_div_eq_ceil _ _ hps
  · show (((sortByCreatedDesc _).drop _).take _).length = _
    rw [List.length_take, List.length_drop, length_sortByCreatedDesc]
    rfl

/-- C2 witness: 25 matching rows with page size 10 give 3 total pages, and
page 3 holds 5 items. -/
theorem c2_witness :
    0 < 10 ∧
    (list_todos dbC2 1 none none 3 10).total_pages = 3 ∧
    (list_todos dbC2 1 none none 3 10).todos.length = 5 := by
  have h := c2_list_pagination dbC2 1 none none 3 10 (by decide)
  have hc : (list_todos dbC2 1 none none 3 10).total_count = 25 := by decide
  refine ⟨by decide, ?_, ?_⟩
  · rw [h.2.1, hc]
    rw [Nat.ceil_eq_iff (by decide : (3 : Nat) ≠ 0)]
    norm_num
  · rw [h.2.2.2, hc]
    decide

/-- C3: `authenticate` returns absent both for an unknown (or inactive)
username and for a failed password verification, and login surfaces the same
`Unauthorized` outcome in both cases. -/
theorem c3_auth_no_username_enumeration (verify : String → String → Bool)
    (db : UserDb) (username password : String) (now : Nat)
    (h : get_user_by_username db username = none ∨
      ∃ u, get_user_by_username db username = some u ∧
        verify password u.hashed_password = false) :
    authenticate_user verify db username password = none ∧
    login_user verify db username password now = .error .unauthorized := by
  have ha : authenticate_user verify db username password = none := by
    rcases h with h | ⟨u, hu, hv⟩
    · simp [authenticate_user, h]
    · simp [authenticate_user, hu, hv]
  exact ⟨ha, by simp [login_user, ha]⟩

/-- C3 witness: with one stored user `alice`, an unknown username and a wrong
password for `alice` both authenticate to absent and log in to 401. -/
theorem c3_witness :
    authenticate_user (fun p h => p == h)
      [⟨1, "alice", "alice@example.com", "hash1", true, 0⟩] "bob" "pw" = none ∧
    login_user (fun p h => p == h)
      [⟨1, "alice", "alice@example.com", "hash1", true, 0⟩] "alice" "wrong" 0
      = .error .unauthorized := by
  have h1 := c3_auth_no_username_enumeration (fun p h => p == h)
    [⟨1, "alice", "alice@example.com", "hash1", true, 0⟩] "bob" "pw" 0
    (Or.inl (by decide))
  have h2 := c3_auth_no_username_enumeration (fun p h => p == h)
    [⟨1, "alice", "alice@example.com", "hash1", true, 0⟩] "alice" "wrong" 0
    (Or.inr ⟨⟨1, "alice", "alice@example.com", "hash1", true, 0⟩,
      by decide, by decide⟩)
  exact ⟨h1.1, h2.2⟩

/-- C4 counterexample: with an existing user `carol` holding the requested
email and an existing user `bob` holding the requested username, both fields
collide, yet registration of `("bob", "alice@x")` reports `email` — the
single `username OR email` query returns the first matching physical row
(`carol`), whose username differs from the request.  The claim's
unconditional "username takes precedence" is therefore false. -/
theorem c4_counterexample :
    (∃ r ∈ ([⟨1, "carol", "alice@x", "h", true, 0⟩,
      ⟨2, "bob", "bob@y", "h", true, 0⟩] : UserDb), r.username = "bob") ∧
    (∃ r ∈ ([⟨1, "carol", "alice@x", "h", true, 0⟩,
      ⟨2, "bob", "bob@y", "h", true, 0⟩] : UserDb), r.email = "alice@x") ∧
    create_user (fun p => p)
      [⟨1, "carol", "alice@x", "h", true, 0⟩, ⟨2, "bob", "bob@y", "h", true, 0⟩]
      ⟨"bob", "alice@x", "pw"⟩ 3 0
      = .error (.alreadyExists "email" "alice@x") := by
  refine ⟨⟨⟨2, "bob", "bob@y", "h", true, 0⟩, by decide, by decide⟩,
    ⟨⟨1, "carol", "alice@x", "h", true, 0⟩, by decide, by decide⟩, rfl⟩

/-- C4 (amended): registration fails with `AlreadyExists` whenever the
username or email is taken; the reported field is determined by the first
existing row matching `username OR email`: `username` when that row's
username equals the requested one, else `email`.  In particular when a single
row holds both the username and the email, `username` takes precedence. -/
theorem c4_already_exists_field (hashFn : String → String)
    (db : UserDb) (u : UserCreate) (newId now : Nat) :
    ((∃ r ∈ db, r.username = u.username ∨ r.email = u.email) →
      ∃ f v, create_user hashFn db u newId now = .error (.alreadyExists f v)) ∧
    (∀ ex, db.find? (fun r => r.username == u.username || r.email == u.email)
        = some ex →
      (ex.username = u.username →
        create_user hashFn db u newId now
          = .error (.alreadyExists "username" u.username)) ∧
      (ex.username ≠ u.username →
        create_user hashFn db u newId now
          = .error (.alreadyExists "email" u.email)) ∧
      (ex.username = u.username ∧ ex.email = u.email →
        create_user hashFn db u newId now
          = .error (.alreadyExists "username" u.username))) := by
  constructor
  · rintro ⟨r, hr, hcol⟩
    have hs : (db.find? (fun r => r.username == u.username || r.email == u.email)).isSome := by
      rw [List.find?_isSome]
      exact ⟨r, hr, by simpa [Bool.or_eq_true, beq_iff_eq] using hcol⟩
    obtain ⟨ex, hex⟩ := Option.isSome_iff_exists.mp hs
    by_cases he : ex.username = u.username
    · exact ⟨"username", u.username, by simp [create_user, hex, he]⟩
    · exact ⟨"email", u.email, by simp [create_user, hex, he]⟩
  · intro ex hex
    refine ⟨fun he => by simp [create_user, hex, he],
      fun he => by simp [create_user, hex, he], fun he => ?_⟩
    simp [create_user, hex, he.1]

/-- C4 witness: re-registering the stored username reports `username`;
registering the stored email under a fresh username reports `email`. -/
theorem c4_witness :
    create_user (fun p => p) [⟨1, "bob", "bob@y", "h", true, 0⟩]
      ⟨"bob", "bob@y", "pw"⟩ 2 0
      = .error (.alreadyExists "username" "bob") ∧
    create_user (fun p => p) [⟨1, "bob", "bob@y", "h", true, 0⟩]
      ⟨"dan", "bob@y", "pw"⟩ 2 0
      = .error (.alreadyExists "email" "bob@y") := by
  have h1 := (c4_already_exists_field (fun p => p)
    [⟨1, "bob", "bob@y", "h", true, 0⟩] ⟨"bob", "bob@y", "pw"⟩ 2 0).2
    ⟨1, "bob", "bob@y", "h", true, 0⟩ (by decide)
  have h2 := (c4_already_exists_field (fun p => p)
    [⟨1, "bob", "bob@y", "h", true, 0⟩] ⟨"dan", "bob@y", "pw"⟩ 2 0).2
    ⟨1, "bob", "bob@y", "h", true, 0⟩ (by decide)
  exact ⟨h1.2.2 ⟨rfl, rfl⟩, h2.2.1 (by decide)⟩

/-- C5: toggle is semantically PATCH with `completed = !current.completed`;
it flips the stored value, and two sequential toggles return the todo to its
original completed value. -/
theorem c5_toggle_flips_and_double_toggle_reverts (db : TodoDb)
    (todo_id user_id : Nat) (r : TodoRow)
    (h : db.find? (rowMatches todo_id user_id) = some r) :
    toggle_todo_completion db todo_id user_id
        = update_todo db todo_id ⟨none, none, some (!r.completed)⟩ user_id ∧
    ∃ db' r', toggle_todo_completion db todo_id user_id = .ok (db', r') ∧
      r'.completed = !r.completed ∧
      ∃ db'' r'', toggle_todo_completion db' todo_id user_id = .ok (db'', r'') ∧
        r''.completed = r.completed := by
  have hget : get_todo db todo_id user_id = .ok r := get_todo_found _ _ _ _ h
  have htog : toggle_todo_completion db todo_id user_id
      = update_todo db todo_id ⟨none, none, some (!r.completed)⟩ user_id := by
    simp [toggle_todo_completion, hget]
  have hupd := update_todo_found db todo_id user_id
    ⟨none, none, some (!r.completed)⟩ r h
  have hfind' := find?_after_update db todo_id user_id
    ⟨none, none, some (!r.completed)⟩ r h
  have hget' := get_todo_found _ todo_id user_id _ hfind'
  have htog' : toggle_todo_completion
      (db.map fun x => if rowMatches todo_id user_id x then
        applyPatch ⟨none, none, some (!r.completed)⟩ x else x) todo_id user_id
      = update_todo
        (db.map fun x => if rowMatches todo_id user_id x then
          applyPatch ⟨none, none, some (!r.completed)⟩ x else x) todo_id
        ⟨none, none,
          some (!(applyPatch ⟨none, none, some (!r.completed)⟩ r).completed)⟩
        user_id := by
    simp [toggle_todo_completion, hget']
  have hupd2 := update_todo_found
    (db.map fun x => if rowMatches todo_id user_id x then
      applyPatch ⟨none, none, some (!r.completed)⟩ x else x) todo_id user_id
    ⟨none, none,
      some (!(applyPatch ⟨none, none, some (!r.completed)⟩ r).completed)⟩
    (applyPatch ⟨none, none, some (!r.completed)⟩ r) hfind'
  refine ⟨htog, _, _, htog.trans hupd, rfl, _, _, htog'.trans hupd2, ?_⟩
  show (!(!r.completed)) = r.completed
  exact Bool.not_not r.completed

/-- C5 witness: toggling a concrete incomplete todo yields `completed = true`
and a second toggle returns it to `false`. -/
theorem c5_witness :
    ∃ db' r', toggle_todo_completion
        ([⟨5, "x", none, false, 0, 1⟩] : TodoDb) 5 1 = .ok (db', r') ∧
      r'.completed = true ∧
      ∃ db'' r'', toggle_todo_completion db' 5 1 = .ok (db'', r'') ∧
        r''.completed = false :=
  (c5_toggle_flips_and_double_toggle_reverts [⟨5, "x", none, false, 0, 1⟩]
    5 1 ⟨5, "x", none, false, 0, 1⟩ (by decide)).2

/-- C8: PATCH changes only the fields present in the input — identity fields
and omitted fields carry over from the existing row and non-matching rows
survive — and a PATCH with no field present returns the existing row over the
unchanged database, issuing no write. -/
theorem c8_patch_changes_only_present_fields (db : TodoDb)
    (todo_id user_id : Nat) (p : TodoPatch) (r : TodoRow)
    (h : db.find? (rowMatches todo_id user_id) = some r) :
    (p = ⟨none, none, none⟩ → update_todo db todo_id p user_id = .ok (db, r)) ∧
    (∀ db' r', update_todo db todo_id p user_id = .ok (db', r') →
      r'.id = r.id ∧ r'.created_at = r.created_at ∧ r'.user_id = r.user_id ∧
      r'.title = p.title.getD r.title ∧
      r'.description = (match p.description with
        | some d => some d
        | none => r.description) ∧
      r'.completed = p.completed.getD r.completed ∧
      db'.length = db.length ∧
      (∀ x ∈ db, rowMatches todo_id user_id x = false → x ∈ db')) := by
  have hupd := update_todo_found db todo_id user_id p r h
  constructor
  · rintro rfl
    rw [hupd, map_applyPatch_empty, applyPatch_empty]
  · intro db' r' hok
    rw [hupd] at hok
    have hdb : db' = db.map fun x =>
        if rowMatches todo_id user_id x then applyPatch p x else x := by
      injection hok with h1
      exact (congrArg Prod.fst h1).symm
    have hr' : r' = applyPatch p r := by
      injection hok with h1
      exact (congrArg Prod.snd h1).symm
    subst hdb
    subst hr'
    refine ⟨rfl, rfl, rfl, rfl, rfl, rfl, List.length_map _ _, ?_⟩
    intro x hx hxm
    refine List.mem_map.mpr ⟨x, hx, ?_⟩
    rw [hxm, if_neg (by simp)]

/-- C8 witness: the empty PATCH on a concrete row returns the row and leaves
the database untouched, and a completed-only PATCH keeps title and
description. -/
theorem c8_witness :
    update_todo ([⟨5, "x", some "keep", false, 0, 1⟩] : TodoDb) 5
      ⟨none, none, none⟩ 1
      = .ok ([⟨5, "x", some "keep", false, 0, 1⟩], ⟨5, "x", some "keep", false, 0, 1⟩) :=
  (c8_patch_changes_only_present_fields [⟨5, "x", some "keep", false, 0, 1⟩]
    5 1 ⟨none, none, none⟩ ⟨5, "x", some "keep", false, 0, 1⟩ (by decide)).1 rfl

/-- C10: a whitespace-only PATCH description is normalized to absent by
validation, an absent description field is treated as "not supplied" by the
PATCH write, and consequently no PATCH input can reset an existing
description to absent. -/
theorem c10_patch_cannot_clear_description (db : TodoDb)
    (todo_id user_id : Nat) (p : TodoPatch) (r : TodoRow)
    (h : db.find? (rowMatches todo_id user_id) = some r) :
    (∀ s, s.length ≤ 1000 → allWhitespace s →
      validateDescriptionField (some s) = .ok none) ∧
    (∀ s c, s.length ≤ 1000 → allWhitespace s →
      parseTodoPatch none (some s) c = .ok ⟨none, none, c⟩) ∧
    (p.description = none → ∀ db' r',
      update_todo db todo_id p user_id = .ok (db', r') →
      r'.description = r.description) ∧
    (∀ db' r', update_todo db todo_id p user_id = .ok (db', r') →
      r.description.isSome → r'.description.isSome) := by
  have hupd := update_todo_found db todo_id user_id p r h
  have hval : ∀ s : String, s.length ≤ 1000 → allWhitespace s →
      validateDescriptionField (some s) = .ok none := by
    intro s hlen hws
    have hstrip : pyStrip s = "" := (pyStrip_eq_empty_iff s).mpr hws
    simp [validateDescriptionField, hstrip, Nat.not_lt.mpr hlen]
  refine ⟨hval, ?_, ?_, ?_⟩
  · intro s c hlen hws
    simp [parseTodoPatch, hval s hlen hws, Bind.bind, Except.bind, Pure.pure,
      Except.pure]
  · intro hd db' r' hok
    rw [hupd] at hok
    have hr' : r' = applyPatch p r := by
      injection hok with h1
      exact (congrArg Prod.snd h1).symm
    subst hr'
    simp [applyPatch, hd]
  · intro db' r' hok hsome
    rw [hupd] at hok
    have hr' : r' = applyPatch p r := by
      injection hok with h1
      exact (congrArg Prod.snd h1).symm
    subst hr'
    cases hd : p.description with
    | none => simpa [applyPatch, hd] using hsome
    | some v => simp [applyPatch, hd]

/-- C10 witness: a whitespace-only description validates to absent, and a
PATCH carrying no description leaves a stored description in place. -/
theorem c10_witness :
    validateDescriptionField (some "   ") = .ok none ∧
    parseTodoPatch none (some "   ") (some true) = .ok ⟨none, none, some true⟩ ∧
    (⟨5, "x", some "keep", true, 0, 1⟩ : TodoRow).description
      = (⟨5, "x", some "keep", false, 0, 1⟩ : TodoRow).description := by
  have h := c10_patch_cannot_clear_description
    [⟨5, "x", some "keep", false, 0, 1⟩] 5 1 ⟨none, none, some true⟩
    ⟨5, "x", some "keep", false, 0, 1⟩ (by decide)
  exact ⟨h.1 "   " (by decide) (by decide),
    h.2.1 "   " (some true) (by decide) (by decide),
    h.2.2.1 rfl [⟨5, "x", some "keep", true, 0, 1⟩]
      ⟨5, "x", some "keep", true, 0, 1⟩ rfl⟩

/-- C6 counterexample: `if expires_delta:` is Python truthiness, so a zero
ttl is treated like an absent one — the token expires at `now + 15 minutes`,
not at `now + ttl = now`.  The claim's unconditional "expiry equal to
now + ttl" is therefore false at ttl = 0. -/
theorem c6_counterexample :
    create_access_token "alice" 100 (some 0) = ⟨"alice", 100 + 15 * 60⟩ ∧
    (create_access_token "alice" 100 (some 0)).exp ≠ 100 + 0 := by
  constructor
  · rfl
  · decide

/-- C6 (amended): the token payload carries the subject; the expiry is
`now + ttl` for every nonzero ttl, and falls back to `now + 15 minutes` both
when no ttl is given and when the ttl is zero (Python truthiness of the
delta); the login caller always passes 30 minutes; and verification fails
once the expiry has passed. -/
theorem c6_token_expiry_and_defaults (sub : String) (now d : Nat)
    (verify : String → String → Bool) (db : UserDb)
    (username password : String) :
    (create_access_token sub now (some d)).sub = sub ∧
    (create_access_token sub now none).sub = sub ∧
    (0 < d → create_access_token sub now (some d) = ⟨sub, now + d⟩) ∧
    create_access_token sub now none = ⟨sub, now + 15 * 60⟩ ∧
    create_access_token sub now (some 0) = ⟨sub, now + 15 * 60⟩ ∧
    (∀ tok, login_user verify db username password now = .ok tok →
      tok.exp = now + 30 * 60) ∧
    (∀ tok now2, tok.exp < now2 →
      verify_token tok now2 = .error .unauthorized) := by
  refine ⟨?_, rfl, ?_, rfl, rfl, ?_, ?_⟩
  · by_cases hd0 : d = 0
    · subst hd0
      rfl
    · show (if d ≠ 0 then (⟨sub, now + d⟩ : Token)
          else ⟨sub, now + 15 * 60⟩).sub = sub
      rw [if_pos hd0]
  · intro hd
    show (if d ≠ 0 then (⟨sub, now + d⟩ : Token) else ⟨sub, now + 15 * 60⟩)
        = ⟨sub, now + d⟩
    rw [if_pos (Nat.pos_iff_ne_zero.mp hd)]
  · intro tok hok
    unfold login_user at hok
    cases hauth : authenticate_user verify db username password with
    | none => rw [hauth] at hok; exact absurd hok (by simp)
    | some u =>
      rw [hauth] at hok
      injection hok with h1
      rw [← h1]
      rfl
  · intro tok now2 hlt
    unfold verify_token
    rw [if_pos hlt]

/-- C6 witness: a 1-second ttl gives expiry `now + 1`, and verification one
second later fails. -/
theorem c6_witness :
    0 < 1 ∧ create_access_token "alice" 0 (some 1) = ⟨"alice", 1⟩ ∧
    (⟨"alice", 1⟩ : Token).exp < 2 ∧
    verify_token ⟨"alice", 1⟩ 2 = .error .unauthorized := by
  have h := c6_token_expiry_and_defaults "alice" 0 1 (fun p hs => p == hs)
    [] "a" "b"
  exact ⟨by decide, h.2.2.1 (by decide), by decide,
    h.2.2.2.2.2.2 ⟨"alice", 1⟩ 2 (by decide)⟩

/-- C9: stats are scoped to the owner, completed and pending counts
partition the total, and a zero total yields completion rate 0 with no
division; a positive total yields `completed/total*100` rounded to two
decimal places. -/
theorem c9_stats_owner_scoped_no_div_zero (db : TodoDb) (user_id : Nat) :
    (get_todo_stats db user_id).total_todos
        = (db.filter fun r => r.user_id == user_id).length ∧
    (get_todo_stats db user_id).completed_todos
        = ((db.filter fun r => r.user_id == user_id).filter
            fun r => r.completed).length ∧
    (get_todo_stats db user_id).pending_todos
        = ((db.filter fun r => r.user_id == user_id).filter
            fun r => !r.completed).length ∧
    (get_todo_stats db user_id).completed_todos
        + (get_todo_stats db user_id).pending_todos
        = (get_todo_stats db user_id).total_todos ∧
    ((get_todo_stats db user_id).total_todos = 0 →
      (get_todo_stats db user_id).completion_rate = 0) ∧
    (0 < (get_todo_stats db user_id).total_todos →
      (get_todo_stats db user_id).completion_rate
        = roundTo2 ((((get_todo_stats db user_id).completed_todos : ℚ)
            / ((get_todo_stats db user_id).total_todos : ℚ)) * 100)) := by
  refine ⟨rfl, rfl, rfl, ?_, ?_, ?_⟩
  · show ((db.filter fun r => r.user_id == user_id).filter
          fun r => r.completed).length
        + ((db.filter fun r => r.user_id == user_id).filter
          fun r => !r.completed).length
      = (db.filter fun r => r.user_id == user_id).length
    exact (List.length_eq_length_filter_add _).symm
  · intro h0
    have h0' : (db.filter fun r => r.user_id == user_id).length = 0 := h0
    show roundTo2
        (if 0 < (db.filter fun r => r.user_id == user_id).length then
          (((db.filter fun r => r.user_id == user_id).filter
              fun r => r.completed).length : ℚ)
            / ((db.filter fun r => r.user_id == user_id).length : ℚ) * 100
        else 0) = 0
    rw [h0']
    simp [roundTo2]
  · intro hpos
    have hpos' : 0 < (db.filter fun r => r.user_id == user_id).length := hpos
    show roundTo2
        (if 0 < (db.filter fun r => r.user_id == user_id).length then
          (((db.filter fun r => r.user_id == user_id).filter
              fun r => r.completed).length : ℚ)
            / ((db.filter fun r => r.user_id == user_id).length : ℚ) * 100
        else 0)
      = roundTo2
        ((((db.filter fun r => r.user_id == user_id).filter
            fun r => r.completed).length : ℚ)
          / ((db.filter fun r => r.user_id == user_id).length : ℚ) * 100)
    rw [if_pos hpos']

/-- C9 witness: stats over an empty set of todos report
`completion_rate = 0` rather than a division error. -/
theorem c9_witness :
    (get_todo_stats [] 7).total_todos = 0 ∧
    (get_todo_stats [] 7).completion_rate = 0 := by
  have h := c9_stats_owner_scoped_no_div_zero [] 7
  exact ⟨by decide, h.2.2.2.2.1 (by decide)⟩

/-- The source title validator accepts exactly the titles the spec accepts
and stores the stripped title. -/
theorem validateTitleField_spec (t : String) :
    (validateTitleField t).isOk = specTitleAccepts t ∧
    (specTitleAccepts t = true → validateTitleField t = .ok (pyStrip t)) := by
  unfold validateTitleField specTitleAccepts
  by_cases h1 : t.length < 1
  · have ht : t.data = [] := by
      have hlen : t.data.length = t.length := rfl
      exact List.length_eq_zero.mp (by omega)
    have hws : allWhitespace t = true := by
      unfold allWhitespace
      rw [ht]
      rfl
    rw [if_pos h1, hws]
    exact ⟨rfl, fun hc => by simp at hc⟩
  · rw [if_neg h1]
    by_cases h2 : t.length > 200
    · have hlen : decide (t.length ≤ 200) = false := decide_eq_false (by omega)
      rw [if_pos h2, hlen]
      exact ⟨by simp [Except.isOk, Except.toBool], fun hc => by simp at hc⟩
    · have hlen : decide (t.length ≤ 200) = true := decide_eq_true (by omega)
      rw [if_neg h2, hlen]
      by_cases h3 : allWhitespace t
      · rw [if_pos h3, h3]
        exact ⟨by simp [Except.isOk, Except.toBool], fun hc => by simp at hc⟩
      · have hws : allWhitespace t = false := by simpa using h3
        rw [if_neg h3, hws]
        rw [contains_pyStrip '<' (by decide) t, contains_pyStrip '>' (by decide) t]
        cases hlt : t.data.contains '<' <;>
          cases hgt : t.data.contains '>' <;>
            simp [Except.isOk, Except.toBool]

/-- The source description validator accepts exactly the descriptions the
spec accepts, normalizes all-whitespace input to absent, and otherwise stores
the stripped description. -/
theorem validateDescriptionField_spec (d : String) :
    (validateDescriptionField (some d)).isOk = specDescriptionAccepts d ∧
    (specDescriptionAccepts d = true → allWhitespace d →
      validateDescriptionField (some d) = .ok none) ∧
    (specDescriptionAccepts d = true → ¬ allWhitespace d →
      validateDescriptionField (some d) = .ok (some (pyStrip d))) := by
  simp only [validateDescriptionField, specDescriptionAccepts]
  by_cases h1 : d.length > 1000
  · have hlen : decide (d.length ≤ 1000) = false := decide_eq_false (by omega)
    rw [if_pos h1, hlen]
    exact ⟨by simp [Except.isOk, Except.toBool], fun hc => by simp at hc,
      fun hc => by simp at hc⟩
  · have hlen : decide (d.length ≤ 1000) = true := decide_eq_true (by omega)
    rw [if_neg h1, hlen]
    by_cases he : pyStrip d = ""
    · rw [if_pos he, he]
      rw [show strIn "<script" (pyLower "") = false from by decide,
        show strIn "</script>" (pyLower "") = false from by decide]
      exact ⟨by simp [Except.isOk, Except.toBool], fun _ _ => rfl,
        fun _ hws => absurd ((pyStrip_eq_empty_iff d).mp he) hws⟩
    · rw [if_neg he]
      have hnw : ¬ allWhitespace d = true := fun hws =>
        he ((pyStrip_eq_empty_iff d).mpr hws)
      refine ⟨?_, fun _ hws => absurd hws hnw, fun hsp _ => ?_⟩
      · cases ha : strIn "<script" (pyLower (pyStrip d)) <;>
          cases hb : strIn "</script>" (pyLower (pyStrip d)) <;>
            simp [Except.isOk, Except.toBool, ha, hb]
      · simp only [Bool.true_and, Bool.and_eq_true, Bool.not_eq_true'] at hsp
        rw [if_neg (by simp [hsp.1, hsp.2])]

/-- C7: the input validation shared by create, replace (PUT) and update
(PATCH) accepts exactly the titles and descriptions the spec describes —
rejecting all-whitespace or over-long titles and titles containing `<` or
`>`, storing titles stripped; trimming descriptions, normalizing
all-whitespace descriptions to absent, and rejecting over-long descriptions
or ones containing `<script` / `</script>` case-insensitively — including
the spec's three concrete examples. -/
theorem c7_validation_matches_spec (t d : String) :
    ((validateTitleField t).isOk = specTitleAccepts t) ∧
    (specTitleAccepts t = true → validateTitleField t = .ok (pyStrip t)) ∧
    ((validateDescriptionField (some d)).isOk = specDescriptionAccepts d) ∧
    (specDescriptionAccepts d = true → allWhitespace d →
      validateDescriptionField (some d) = .ok none) ∧
    (specDescriptionAccepts d = true → ¬ allWhitespace d →
      validateDescriptionField (some d) = .ok (some (pyStrip d))) ∧
    ((parseTodoCreate t (some d)).isOk
      = (specTitleAccepts t && specDescriptionAccepts d)) ∧
    ((parseTodoPut t (some d) none).isOk
      = (specTitleAccepts t && specDescriptionAccepts d)) ∧
    ((parseTodoPatch (some t) (some d) none).isOk
      = (specTitleAccepts t && specDescriptionAccepts d)) ∧
    validateTitleField "  <b>x</b>  " = .error "Title cannot contain HTML tags" ∧
    validateTitleField "   " = .error "Title cannot be empty or just whitespace" ∧
    validateDescriptionField (some "<script>alert(1)</script>")
      = .error "Description cannot contain script tags" := by
  have hT := validateTitleField_spec t
  have hD := validateDescriptionField_spec d
  have hcreate : (parseTodoCreate t (some d)).isOk
      = (specTitleAccepts t && specDescriptionAccepts d) := by
    rw [← hT.1, ← hD.1]
    unfold parseTodoCreate
    cases hvt : validateTitleField t <;>
      cases hvd : validateDescriptionField (some d) <;>
        simp [Bind.bind, Except.bind, Pure.pure, Except.pure, Except.isOk,
          Except.toBool, hvt, hvd]
  have hput : (parseTodoPut t (some d) none).isOk
      = (specTitleAccepts t && specDescriptionAccepts d) := by
    rw [← hT.1, ← hD.1]
    unfold parseTodoPut
    cases hvt : validateTitleField t <;>
      cases hvd : validateDescriptionField (some d) <;>
        simp [Bind.bind, Except.bind, Pure.pure, Except.pure, Except.isOk,
          Except.toBool, hvt, hvd]
  have hpatch : (parseTodoPatch (some t) (some d) none).isOk
      = (specTitleAccepts t && specDescriptionAccepts d) := by
    rw [← hT.1, ← hD.1]
    unfold parseTodoPatch
    cases hvt : validateTitleField t <;>
      cases hvd : validateDescriptionField (some d) <;>
        simp [Bind.bind, Except.bind, Pure.pure, Except.pure, Except.isOk,
          Except.toBool, Except.map, hvt, hvd]
  exact ⟨hT.1, hT.2, hD.1, hD.2.1, hD.2.2, hcreate, hput, hpatch,
    rfl, rfl, rfl⟩

/-- C7 witness: a concrete valid title is stored stripped and a concrete
valid description is stored stripped, with the spec-side acceptance
predicates evaluated on the same inputs. -/
theorem c7_witness :
    specTitleAccepts " ok " = true ∧
    validateTitleField " ok " = .ok (pyStrip " ok ") ∧
    specDescriptionAccepts " hello " = true ∧
    validateDescriptionField (some " hello ") = .ok (some (pyStrip " hello ")) := by
  have h := c7_validation_matches_spec " ok " " hello "
  exact ⟨by decide, h.2.1 (by decide), by decide,
    h.2.2.2.2.1 (by decide) (by decide)⟩

end TodoApp

